import Mathlib

/-!
Verification of the cleaner staffing and profitability calculator
(`src/pnl_cleaner.py`).  The core of the program is the pure function
`calculate_cleaner_needs`, which maps eight numeric inputs to four derived
profitability figures, a staffing count, and an optional error message.
Downstream of it, the presentation layer computes monthly aggregate totals
(`total_cleaner_pay_monthly`, ..., `total_monthly_revenue`) that are pure
functions of the calculator's output.  All numbers are modelled as exact
rationals; the staffing count, produced by `math.ceil`, is an integer.
-/

/-- The eight scalar inputs collected by the sidebar widgets and passed to
`calculate_cleaner_needs`, in the order of the Python signature. -/
structure Inputs where
  job_revenue : ℚ
  cleaner_pay : ℚ
  transport_cost : ℚ
  supplies_cost : ℚ
  hostel_cost_per_month : ℚ
  jobs_per_cleaner_per_day : ℚ
  working_days_per_month : ℚ
  target_monthly_profit : ℚ
deriving DecidableEq, Repr

/-- The six-component tuple returned by `calculate_cleaner_needs`:
`(profit_per_job, jobs_per_cleaner_per_month, gross_profit_per_cleaner_per_month,
net_profit_per_cleaner_per_month, num_cleaners_needed, error_message)`. -/
structure CalcResult where
  profit_per_job : ℚ
  jobs_per_cleaner_per_month : ℚ
  gross_profit_per_cleaner_per_month : ℚ
  net_profit_per_cleaner_per_month : ℚ
  num_cleaners_needed : ℤ
  error_message : Option String
deriving DecidableEq, Repr

/-- The error message assigned when net profit per cleaner is not positive
(line 179 of `src/pnl_cleaner.py`). -/
def unprofitable_message : String :=
  "Net profit per cleaner is zero or negative. Adjust inputs to achieve a positive profit per cleaner."

/-- Step 1 of the calculator: `profit_per_job = job_revenue - cleaner_pay -
transport_cost - supplies_cost`. -/
def profit_per_job (i : Inputs) : ℚ :=
  i.job_revenue - i.cleaner_pay - i.transport_cost - i.supplies_cost

/-- Step 2: `jobs_per_cleaner_per_month = jobs_per_cleaner_per_day *
working_days_per_month`. -/
def jobs_per_cleaner_per_month (i : Inputs) : ℚ :=
  i.jobs_per_cleaner_per_day * i.working_days_per_month

/-- Step 3: `gross_profit_per_cleaner_per_month = profit_per_job *
jobs_per_cleaner_per_month`. -/
def gross_profit_per_cleaner_per_month (i : Inputs) : ℚ :=
  profit_per_job i * jobs_per_cleaner_per_month i

/-- Step 4: `net_profit_per_cleaner_per_month =
gross_profit_per_cleaner_per_month - hostel_cost_per_month`. -/
def net_profit_per_cleaner_per_month (i : Inputs) : ℚ :=
  gross_profit_per_cleaner_per_month i - i.hostel_cost_per_month

/-- The calculator itself (lines 155-185 of `src/pnl_cleaner.py`): after the
four arithmetic steps, `num_cleaners_needed` starts at `0`; if the net profit
per cleaner is `≤ 0` an error message is set, otherwise the staffing count is
`ceil(target_monthly_profit / net_profit_per_cleaner_per_month)`. -/
def calculate_cleaner_needs (i : Inputs) : CalcResult :=
  if net_profit_per_cleaner_per_month i ≤ 0 then
    { profit_per_job := profit_per_job i
      jobs_per_cleaner_per_month := jobs_per_cleaner_per_month i
      gross_profit_per_cleaner_per_month := gross_profit_per_cleaner_per_month i
      net_profit_per_cleaner_per_month := net_profit_per_cleaner_per_month i
      num_cleaners_needed := 0
      error_message := some unprofitable_message }
  else
    { profit_per_job := profit_per_job i
      jobs_per_cleaner_per_month := jobs_per_cleaner_per_month i
      gross_profit_per_cleaner_per_month := gross_profit_per_cleaner_per_month i
      net_profit_per_cleaner_per_month := net_profit_per_cleaner_per_month i
      num_cleaners_needed :=
        Int.ceil (i.target_monthly_profit / net_profit_per_cleaner_per_month i)
      error_message := none }

/-- Line 247: `total_jobs_per_month = num_cleaners_needed *
jobs_per_cleaner_per_month`. -/
def total_jobs_per_month (i : Inputs) : ℚ :=
  ((calculate_cleaner_needs i).num_cleaners_needed : ℚ) * jobs_per_cleaner_per_month i

/-- Line 252: `total_monthly_revenue_needed = num_cleaners_needed * job_revenue
* jobs_per_cleaner_per_month`. -/
def total_monthly_revenue_needed (i : Inputs) : ℚ :=
  ((calculate_cleaner_needs i).num_cleaners_needed : ℚ) * i.job_revenue *
    jobs_per_cleaner_per_month i

/-- Line 289: `total_cleaner_pay_monthly = num_cleaners_needed * cleaner_pay *
jobs_per_cleaner_per_month`. -/
def total_cleaner_pay_monthly (i : Inputs) : ℚ :=
  ((calculate_cleaner_needs i).num_cleaners_needed : ℚ) * i.cleaner_pay *
    jobs_per_cleaner_per_month i

/-- Line 290: `total_transport_cost_monthly = num_cleaners_needed *
transport_cost * jobs_per_cleaner_per_month`. -/
def total_transport_cost_monthly (i : Inputs) : ℚ :=
  ((calculate_cleaner_needs i).num_cleaners_needed : ℚ) * i.transport_cost *
    jobs_per_cleaner_per_month i

/-- Line 291: `total_supplies_cost_monthly = num_cleaners_needed *
supplies_cost * jobs_per_cleaner_per_month`. -/
def total_supplies_cost_monthly (i : Inputs) : ℚ :=
  ((calculate_cleaner_needs i).num_cleaners_needed : ℚ) * i.supplies_cost *
    jobs_per_cleaner_per_month i

/-- Line 292: `total_hostel_cost_monthly = num_cleaners_needed *
hostel_cost_per_month`. -/
def total_hostel_cost_monthly (i : Inputs) : ℚ :=
  ((calculate_cleaner_needs i).num_cleaners_needed : ℚ) * i.hostel_cost_per_month

/-- Lines 294-298: the `Amount` column of the monthly financials data frame:
the four monthly cost totals followed by the target profit. -/
def monthly_financials_amounts (i : Inputs) : List ℚ :=
  [total_cleaner_pay_monthly i, total_transport_cost_monthly i,
   total_supplies_cost_monthly i, total_hostel_cost_monthly i,
   i.target_monthly_profit]

/-- Line 311: `total_monthly_revenue = df_monthly_financials['Amount'].sum()`. -/
def total_monthly_revenue (i : Inputs) : ℚ :=
  (monthly_financials_amounts i).sum

/-- Scenario 1 of the spec: the nominal input tuple. -/
def scenario1 : Inputs :=
  { job_revenue := 100
    cleaner_pay := 35
    transport_cost := 17
    supplies_cost := 3
    hostel_cost_per_month := 300
    jobs_per_cleaner_per_day := 2
    working_days_per_month := 26
    target_monthly_profit := 30000 }

/-- An unprofitable input tuple (Scenario 2 of the spec): profit per job is
`90 - 60 - 30 - 10 = -10`. -/
def scenario2 : Inputs :=
  { job_revenue := 90
    cleaner_pay := 60
    transport_cost := 30
    supplies_cost := 10
    hostel_cost_per_month := 300
    jobs_per_cleaner_per_day := 2
    working_days_per_month := 26
    target_monthly_profit := 30000 }

/-- A boundary input tuple: `profit_per_job = 45`, `gross = 45 * 52 = 2340`,
and `hostel_cost_per_month = 2340`, so the net profit per cleaner is exactly `0`. -/
def scenario5 : Inputs :=
  { job_revenue := 100
    cleaner_pay := 35
    transport_cost := 17
    supplies_cost := 3
    hostel_cost_per_month := 2340
    jobs_per_cleaner_per_day := 2
    working_days_per_month := 26
    target_monthly_profit := 30000 }

/-- Helper: the first four components of the result equal the four arithmetic
steps, in both branches of the calculator. -/
theorem calc_fields_eq (i : Inputs) :
    (calculate_cleaner_needs i).profit_per_job = profit_per_job i ∧
    (calculate_cleaner_needs i).jobs_per_cleaner_per_month = jobs_per_cleaner_per_month i ∧
    (calculate_cleaner_needs i).gross_profit_per_cleaner_per_month =
      gross_profit_per_cleaner_per_month i ∧
    (calculate_cleaner_needs i).net_profit_per_cleaner_per_month =
      net_profit_per_cleaner_per_month i := by
  unfold calculate_cleaner_needs
  split <;> exact ⟨rfl, rfl, rfl, rfl⟩

/-- Helper: in the profitable branch the staffing count is the ceiling of
`target_monthly_profit / net_profit_per_cleaner_per_month`. -/
theorem num_cleaners_eq_ceil (i : Inputs)
    (h : 0 < net_profit_per_cleaner_per_month i) :
    (calculate_cleaner_needs i).num_cleaners_needed =
      Int.ceil (i.target_monthly_profit / net_profit_per_cleaner_per_month i) := by
  simp [calculate_cleaner_needs, not_le.mpr h]

/-- Helper: the error message is absent exactly when the net profit per
cleaner is positive. -/
theorem error_none_iff (i : Inputs) :
    (calculate_cleaner_needs i).error_message = none ↔
      0 < net_profit_per_cleaner_per_month i := by
  by_cases hn : net_profit_per_cleaner_per_month i ≤ 0
  · simp [calculate_cleaner_needs, hn, not_lt.mpr hn]
  · simp [calculate_cleaner_needs, hn, lt_of_not_le hn]

/-- C1: for every input with `net_profit_per_cleaner_per_month > 0`, the
result carries no error and `num_cleaners_needed` is the ceiling of
`target_monthly_profit / net_profit_per_cleaner_per_month`; in particular a
zero target yields `num_cleaners_needed = 0`. -/
theorem C1_staffed_ceiling (i : Inputs)
    (h : 0 < net_profit_per_cleaner_per_month i) :
    (calculate_cleaner_needs i).error_message = none ∧
    (calculate_cleaner_needs i).num_cleaners_needed =
      Int.ceil (i.target_monthly_profit / net_profit_per_cleaner_per_month i) ∧
    (i.target_monthly_profit = 0 →
      (calculate_cleaner_needs i).num_cleaners_needed = 0) := by
  refine ⟨(error_none_iff i).mpr h, num_cleaners_eq_ceil i h, fun ht => ?_⟩
  rw [num_cleaners_eq_ceil i h, ht, zero_div, Int.ceil_zero]

/-- Witness for C1 at the nominal Scenario 1 input. -/
theorem C1_staffed_ceiling_witness :
    (calculate_cleaner_needs scenario1).error_message = none ∧
    (calculate_cleaner_needs scenario1).num_cleaners_needed =
      Int.ceil (scenario1.target_monthly_profit /
        net_profit_per_cleaner_per_month scenario1) ∧
    (scenario1.target_monthly_profit = 0 →
      (calculate_cleaner_needs scenario1).num_cleaners_needed = 0) :=
  C1_staffed_ceiling scenario1 (by
    norm_num [net_profit_per_cleaner_per_month, gross_profit_per_cleaner_per_month,
      profit_per_job, jobs_per_cleaner_per_month, scenario1])

/-- C2: the result carries the unprofitable error message exactly when
`net_profit_per_cleaner_per_month ≤ 0`; in that case the four intermediate
values are carried unchanged and `num_cleaners_needed = 0`; the failure
reason is a non-empty string. -/
theorem C2_unprofitable_branch (i : Inputs) :
    ((calculate_cleaner_needs i).error_message = some unprofitable_message ↔
      net_profit_per_cleaner_per_month i ≤ 0) ∧
    (net_profit_per_cleaner_per_month i ≤ 0 →
      (calculate_cleaner_needs i).profit_per_job = profit_per_job i ∧
      (calculate_cleaner_needs i).jobs_per_cleaner_per_month =
        jobs_per_cleaner_per_month i ∧
      (calculate_cleaner_needs i).gross_profit_per_cleaner_per_month =
        gross_profit_per_cleaner_per_month i ∧
      (calculate_cleaner_needs i).net_profit_per_cleaner_per_month =
        net_profit_per_cleaner_per_month i ∧
      (calculate_cleaner_needs i).num_cleaners_needed = 0) ∧
    unprofitable_message ≠ "" := by
  refine ⟨?_, fun hn => ?_, by simp [unprofitable_message]⟩
  · by_cases hn : net_profit_per_cleaner_per_month i ≤ 0 <;>
      simp [calculate_cleaner_needs, hn]
  · obtain ⟨h1, h2, h3, h4⟩ := calc_fields_eq i
    refine ⟨h1, h2, h3, h4, ?_⟩
    simp [calculate_cleaner_needs, hn]

/-- Witness for C2 at the unprofitable Scenario 2 input. -/
theorem C2_unprofitable_branch_witness :
    ((calculate_cleaner_needs scenario2).error_message = some unprofitable_message ↔
      net_profit_per_cleaner_per_month scenario2 ≤ 0) ∧
    (net_profit_per_cleaner_per_month scenario2 ≤ 0 →
      (calculate_cleaner_needs scenario2).profit_per_job = profit_per_job scenario2 ∧
      (calculate_cleaner_needs scenario2).jobs_per_cleaner_per_month =
        jobs_per_cleaner_per_month scenario2 ∧
      (calculate_cleaner_needs scenario2).gross_profit_per_cleaner_per_month =
        gross_profit_per_cleaner_per_month scenario2 ∧
      (calculate_cleaner_needs scenario2).net_profit_per_cleaner_per_month =
        net_profit_per_cleaner_per_month scenario2 ∧
      (calculate_cleaner_needs scenario2).num_cleaners_needed = 0) ∧
    unprofitable_message ≠ "" :=
  C2_unprofitable_branch scenario2

/-- C3: in the profitable branch, the chosen staffing count reaches the
target (`num * net ≥ target`) and is minimal (one fewer cleaner falls
short whenever the count is positive). -/
theorem C3_ceiling_bounds (i : Inputs)
    (h : 0 < net_profit_per_cleaner_per_month i) :
    ((calculate_cleaner_needs i).num_cleaners_needed : ℚ) *
        net_profit_per_cleaner_per_month i ≥ i.target_monthly_profit ∧
    (0 < (calculate_cleaner_needs i).num_cleaners_needed →
      (((calculate_cleaner_needs i).num_cleaners_needed : ℚ) - 1) *
          net_profit_per_cleaner_per_month i < i.target_monthly_profit) := by
  rw [num_cleaners_eq_ceil i h]
  constructor
  · exact (div_le_iff₀ h).mp (Int.le_ceil _)
  · intro _
    have hlt : (Int.ceil (i.target_monthly_profit / net_profit_per_cleaner_per_month i) : ℚ) - 1 <
        i.target_monthly_profit / net_profit_per_cleaner_per_month i := by
      have := Int.ceil_lt_add_one
        (i.target_monthly_profit / net_profit_per_cleaner_per_month i)
      linarith
    exact (lt_div_iff₀ h).mp hlt

/-- Witness for C3 at the nominal Scenario 1 input. -/
theorem C3_ceiling_bounds_witness :
    ((calculate_cleaner_needs scenario1).num_cleaners_needed : ℚ) *
        net_profit_per_cleaner_per_month scenario1 ≥ scenario1.target_monthly_profit ∧
    (0 < (calculate_cleaner_needs scenario1).num_cleaners_needed →
      (((calculate_cleaner_needs scenario1).num_cleaners_needed : ℚ) - 1) *
          net_profit_per_cleaner_per_month scenario1 < scenario1.target_monthly_profit) :=
  C3_ceiling_bounds scenario1 (by
    norm_num [net_profit_per_cleaner_per_month, gross_profit_per_cleaner_per_month,
      profit_per_job, jobs_per_cleaner_per_month, scenario1])

/-- C4: a net profit per cleaner of exactly `0` takes the unprofitable branch
(error set, count `0`) and the result is independent of the target profit;
moreover, the error message is absent only when the net profit is strictly
positive, so the division is only performed with a positive divisor. -/
theorem C4_zero_boundary (i : Inputs)
    (h : net_profit_per_cleaner_per_month i = 0) :
    (calculate_cleaner_needs i).error_message = some unprofitable_message ∧
    (calculate_cleaner_needs i).num_cleaners_needed = 0 ∧
    (∀ t : ℚ, calculate_cleaner_needs { i with target_monthly_profit := t } =
      calculate_cleaner_needs i) ∧
    (∀ j : Inputs, (calculate_cleaner_needs j).error_message = none →
      0 < net_profit_per_cleaner_per_month j) := by
  have hle : net_profit_per_cleaner_per_month i ≤ 0 := le_of_eq h
  have hupd : ∀ t : ℚ,
      net_profit_per_cleaner_per_month { i with target_monthly_profit := t } =
        net_profit_per_cleaner_per_month i := fun _ => rfl
  refine ⟨by simp [calculate_cleaner_needs, hle], by simp [calculate_cleaner_needs, hle],
    fun t => ?_, fun j => (error_none_iff j).mp⟩
  simp [calculate_cleaner_needs, hupd, hle]
  exact ⟨rfl, rfl, rfl⟩

/-- Witness for C4 at the boundary input with net profit exactly `0`. -/
theorem C4_zero_boundary_witness :
    (calculate_cleaner_needs scenario5).error_message = some unprofitable_message ∧
    (calculate_cleaner_needs scenario5).num_cleaners_needed = 0 ∧
    (∀ t : ℚ, calculate_cleaner_needs { scenario5 with target_monthly_profit := t } =
      calculate_cleaner_needs scenario5) ∧
    (∀ j : Inputs, (calculate_cleaner_needs j).error_message = none →
      0 < net_profit_per_cleaner_per_month j) :=
  C4_zero_boundary scenario5 (by
    norm_num [net_profit_per_cleaner_per_month, gross_profit_per_cleaner_per_month,
      profit_per_job, jobs_per_cleaner_per_month, scenario5])

/-- C5: the four intermediate outputs equal their defining arithmetic
expressions, chained exactly as in the source, for every input and in both
branches; and the error message depends only on the sign of the net profit,
so a negative `profit_per_job` is not itself an error condition. -/
theorem C5_intermediate_values (i : Inputs) :
    (calculate_cleaner_needs i).profit_per_job =
      i.job_revenue - i.cleaner_pay - i.transport_cost - i.supplies_cost ∧
    (calculate_cleaner_needs i).jobs_per_cleaner_per_month =
      i.jobs_per_cleaner_per_day * i.working_days_per_month ∧
    (calculate_cleaner_needs i).gross_profit_per_cleaner_per_month =
      (calculate_cleaner_needs i).profit_per_job *
        (calculate_cleaner_needs i).jobs_per_cleaner_per_month ∧
    (calculate_cleaner_needs i).net_profit_per_cleaner_per_month =
      (calculate_cleaner_needs i).gross_profit_per_cleaner_per_month -
        i.hostel_cost_per_month ∧
    ((calculate_cleaner_needs i).error_message = none ↔
      0 < (calculate_cleaner_needs i).net_profit_per_cleaner_per_month) := by
  obtain ⟨h1, h2, h3, h4⟩ := calc_fields_eq i
  refine ⟨h1, by rw [h2]; rfl, by rw [h1, h2, h3]; rfl, by rw [h3, h4]; rfl, ?_⟩
  rw [h4]
  exact error_none_iff i

/-- C6: raising `job_revenue` while holding the other seven inputs fixed (the
job counts, working days and target being non-negative, as the input widgets
enforce) never decreases `profit_per_job` or the net profit per cleaner, and
never increases the staffing count when both nets are positive. -/
theorem C6_monotone_job_revenue (i : Inputs) (r : ℚ) (hr : i.job_revenue ≤ r)
    (hd : 0 ≤ i.jobs_per_cleaner_per_day) (hw : 0 ≤ i.working_days_per_month)
    (ht : 0 ≤ i.target_monthly_profit) :
    profit_per_job i ≤ profit_per_job { i with job_revenue := r } ∧
    net_profit_per_cleaner_per_month i ≤
      net_profit_per_cleaner_per_month { i with job_revenue := r } ∧
    (0 < net_profit_per_cleaner_per_month i →
      0 < net_profit_per_cleaner_per_month { i with job_revenue := r } →
      (calculate_cleaner_needs { i with job_revenue := r }).num_cleaners_needed ≤
        (calculate_cleaner_needs i).num_cleaners_needed) := by
  have hjp : profit_per_job i ≤ profit_per_job { i with job_revenue := r } := by
    unfold profit_per_job
    dsimp only
    linarith
  have hjm : jobs_per_cleaner_per_month { i with job_revenue := r } =
      jobs_per_cleaner_per_month i := rfl
  have hjmn : 0 ≤ jobs_per_cleaner_per_month i := mul_nonneg hd hw
  have hnet : net_profit_per_cleaner_per_month i ≤
      net_profit_per_cleaner_per_month { i with job_revenue := r } := by
    unfold net_profit_per_cleaner_per_month gross_profit_per_cleaner_per_month
    rw [hjm]
    have hmul := mul_le_mul_of_nonneg_right hjp hjmn
    dsimp only
    linarith
  refine ⟨hjp, hnet, fun h1 h2 => ?_⟩
  rw [num_cleaners_eq_ceil _ h1, num_cleaners_eq_ceil _ h2]
  exact Int.ceil_mono (div_le_div_of_nonneg_left ht h1 hnet)

/-- Witness for C6: Scenario 1 with revenue raised from 100 to 110. -/
theorem C6_monotone_job_revenue_witness :
    profit_per_job scenario1 ≤ profit_per_job { scenario1 with job_revenue := 110 } ∧
    net_profit_per_cleaner_per_month scenario1 ≤
      net_profit_per_cleaner_per_month { scenario1 with job_revenue := 110 } ∧
    (0 < net_profit_per_cleaner_per_month scenario1 →
      0 < net_profit_per_cleaner_per_month { scenario1 with job_revenue := 110 } →
      (calculate_cleaner_needs { scenario1 with job_revenue := 110 }).num_cleaners_needed ≤
        (calculate_cleaner_needs scenario1).num_cleaners_needed) :=
  C6_monotone_job_revenue scenario1 110 (by norm_num [scenario1])
    (by norm_num [scenario1]) (by norm_num [scenario1]) (by norm_num [scenario1])

/-- C7: the displayed `total_monthly_revenue` is exactly the sum of the four
monthly cost totals plus the target profit itself. -/
theorem C7_revenue_is_five_component_sum (i : Inputs) :
    total_monthly_revenue i =
      ((calculate_cleaner_needs i).num_cleaners_needed : ℚ) * i.cleaner_pay *
          jobs_per_cleaner_per_month i +
        ((calculate_cleaner_needs i).num_cleaners_needed : ℚ) * i.transport_cost *
          jobs_per_cleaner_per_month i +
        ((calculate_cleaner_needs i).num_cleaners_needed : ℚ) * i.supplies_cost *
          jobs_per_cleaner_per_month i +
        ((calculate_cleaner_needs i).num_cleaners_needed : ℚ) *
          i.hostel_cost_per_month +
        i.target_monthly_profit := by
  simp only [total_monthly_revenue, monthly_financials_amounts,
    total_cleaner_pay_monthly, total_transport_cost_monthly,
    total_supplies_cost_monthly, total_hostel_cost_monthly, List.sum_cons,
    List.sum_nil]
  ring

/-- C8: the nominal Scenario 1 input yields exactly the six outputs the spec
lists, with no error. -/
theorem C8_scenario1_values :
    calculate_cleaner_needs scenario1 =
      { profit_per_job := 45
        jobs_per_cleaner_per_month := 52
        gross_profit_per_cleaner_per_month := 2340
        net_profit_per_cleaner_per_month := 2040
        num_cleaners_needed := 15
        error_message := none } := by
  have h : net_profit_per_cleaner_per_month scenario1 = 2040 := by
    norm_num [net_profit_per_cleaner_per_month, gross_profit_per_cleaner_per_month,
      profit_per_job, jobs_per_cleaner_per_month, scenario1]
  have hpos : ¬ net_profit_per_cleaner_per_month scenario1 ≤ 0 := by
    rw [h]; norm_num
  unfold calculate_cleaner_needs
  rw [if_neg hpos, h]
  norm_num [gross_profit_per_cleaner_per_month, profit_per_job,
    jobs_per_cleaner_per_month, scenario1, CalcResult.mk.injEq, Int.ceil_eq_iff]

/-- C9: the calculator is deterministic: equal input tuples produce equal
six-component results. -/
theorem C9_deterministic (i j : Inputs) (h : i = j) :
    calculate_cleaner_needs i = calculate_cleaner_needs j := by
  rw [h]

/-- Witness for C9 at the nominal Scenario 1 input. -/
theorem C9_deterministic_witness :
    calculate_cleaner_needs scenario1 = calculate_cleaner_needs scenario1 :=
  C9_deterministic scenario1 scenario1 rfl

/-- C10: with non-negative per-job figures and a positive net profit per
cleaner, the revenue KPI `total_monthly_revenue_needed` is at least the
five-component `total_monthly_revenue`, and the gap is exactly
`num_cleaners_needed * net_profit_per_cleaner_per_month - target_monthly_profit`,
the ceiling overshoot. -/
theorem C10_revenue_overshoot (i : Inputs)
    (_hjr : 0 ≤ i.job_revenue) (_hcp : 0 ≤ i.cleaner_pay)
    (_htc : 0 ≤ i.transport_cost) (_hsc : 0 ≤ i.supplies_cost)
    (h : 0 < net_profit_per_cleaner_per_month i) :
    total_monthly_revenue i ≤ total_monthly_revenue_needed i ∧
    total_monthly_revenue_needed i - total_monthly_revenue i =
      ((calculate_cleaner_needs i).num_cleaners_needed : ℚ) *
          net_profit_per_cleaner_per_month i - i.target_monthly_profit := by
  have hdiff : total_monthly_revenue_needed i - total_monthly_revenue i =
      ((calculate_cleaner_needs i).num_cleaners_needed : ℚ) *
          net_profit_per_cleaner_per_month i - i.target_monthly_profit := by
    simp only [total_monthly_revenue_needed, total_monthly_revenue,
      monthly_financials_amounts, total_cleaner_pay_monthly,
      total_transport_cost_monthly, total_supplies_cost_monthly,
      total_hostel_cost_monthly, List.sum_cons, List.sum_nil,
      net_profit_per_cleaner_per_month, gross_profit_per_cleaner_per_month,
      profit_per_job]
    ring
  have hge : i.target_monthly_profit ≤
      ((calculate_cleaner_needs i).num_cleaners_needed : ℚ) *
        net_profit_per_cleaner_per_month i := by
    rw [num_cleaners_eq_ceil i h]
    exact (div_le_iff₀ h).mp (Int.le_ceil _)
  exact ⟨by linarith, hdiff⟩

/-- Witness for C10 at the nominal Scenario 1 input. -/
theorem C10_revenue_overshoot_witness :
    total_monthly_revenue scenario1 ≤ total_monthly_revenue_needed scenario1 ∧
    total_monthly_revenue_needed scenario1 - total_monthly_revenue scenario1 =
      ((calculate_cleaner_needs scenario1).num_cleaners_needed : ℚ) *
          net_profit_per_cleaner_per_month scenario1 -
        scenario1.target_monthly_profit :=
  C10_revenue_overshoot scenario1 (by norm_num [scenario1]) (by norm_num [scenario1])
    (by norm_num [scenario1]) (by norm_num [scenario1]) (by
      norm_num [net_profit_per_cleaner_per_month, gross_profit_per_cleaner_per_month,
        profit_per_job, jobs_per_cleaner_per_month, scenario1])
